import Mathlib

/-!
Formal model of the client-side state logic of the CDS (clinical decision
support) web frontend.

The React components keep their state in `useState` slots and mutate it in
event handlers; each handler is modelled here as a pure function from the
component state (plus the outcome of any awaited network call, passed in as
an explicit argument) to the next component state, together with the list of
HTTP requests the handler issues.  Network outcomes are `Except`/`Option`
values: `Except.error` models a rejected or non-2xx fetch, `Option.none`
models a failed per-item lookup.

Sources modelled:
* the clinical-query page (component `ClinicalQuery`): `handleSubmit`,
  query history, error banner;
* `components/DrugInteractions.tsx` (component `DrugInteractions`):
  medication list editing, `checkInteractions`, severity styling, and the
  "No Drug Interactions Found" render guard;
* the guidelines explorer (component `GuidelinesExplorer` in the same
  file): `handleSearch` request selection;
* the knowledge repository page (component `KnowledgeRepository`):
  `toggleDocumentSelection`, select-all, `exportBibliography`, and
  `getEvidenceLevelColor`.
-/

namespace CDS

/-! ## String primitives

JS `String.prototype.trim` and `String.prototype.toUpperCase` are modelled
character-wise over the string's character list (the sources only apply
them to ASCII medication names, query text and evidence-level letters). -/

/-- JS `trim`: drop leading and trailing whitespace characters. -/
def trimStr (s : String) : String :=
  String.mk
    (((s.data.dropWhile Char.isWhitespace).reverse.dropWhile
        Char.isWhitespace).reverse)

/-- JS `toUpperCase`: uppercase every character. -/
def toUpperStr (s : String) : String :=
  String.mk (s.data.map Char.toUpper)

/-! ## Data model (from `frontend/src/types/api.ts`) -/

/-- `Source` from `types/api.ts`.  The TS field `type` is rendered as
`stype` because `type` is a Lean keyword. -/
structure Source where
  title : String
  url : Option String
  stype : String
  evidence_level : String
deriving Repr, DecidableEq

/-- `ClinicalRecommendation` from `types/api.ts`; `confidence_score` is a
JS number in [0, 1], modelled as a rational. -/
structure ClinicalRecommendation where
  recommendation : String
  confidence_score : Rat
  evidence_level : String
  reasoning : String
  considerations : List String
  contraindications : List String
  monitoring : List String
  sources : List Source
deriving Repr, DecidableEq

/-- `DrugInteraction` from `types/api.ts`. -/
structure DrugInteractionRec where
  drug1 : String
  drug2 : String
  severity : String
  description : String
  mechanism : Option String
  management : String
  sources : List String
deriving Repr, DecidableEq

/-- `ClinicalResponse` from `types/api.ts`; `processing_time_ms` is an
optional JS number, modelled as an optional rational. -/
structure ClinicalResponse where
  query_id : String
  recommendations : List ClinicalRecommendation
  drug_interactions : List DrugInteractionRec
  differential_diagnoses : List String
  red_flags : List String
  next_steps : List String
  timestamp : String
  processing_time_ms : Option Rat
deriving Repr, DecidableEq

/-- `PatientContext` from `types/api.ts`; every field is optional.
`lab_values` is a string-keyed record whose values (string or number) are
modelled as their rendered strings. -/
structure PatientContext where
  age : Option Nat := none
  gender : Option String := none
  weight_kg : Option Rat := none
  height_cm : Option Rat := none
  allergies : Option (List String) := none
  current_medications : Option (List String) := none
  medical_conditions : Option (List String) := none
  lab_values : Option (List (String × String)) := none
deriving Repr, DecidableEq

/-! ## Clinical-query flow (component `ClinicalQuery`)

State slots of the component: `query`, `patientContext`, `isLoading`,
`response`, `error`, `queryHistory` (the UI-only `showPatientContext`
toggle is omitted). -/

structure CQState where
  query : String
  patientContext : PatientContext
  isLoading : Bool
  response : Option ClinicalResponse
  error : Option String
  queryHistory : List String
deriving Repr, DecidableEq

/-- `handleSubmit` of the `ClinicalQuery` component.  The outcome of the
awaited `clinicalAPI.submitQuery` call is `submitResult`.  The source:
an empty (all-whitespace) query sets the validation error and returns;
otherwise it sets loading, clears the error AND the displayed response,
awaits the call, then on success stores the result and prepends the
trimmed query to the history (only when not already present, keeping at
most the first 4 prior entries), and on failure sets the generic error
message; `finally` clears loading. -/
def handleSubmit (s : CQState) (submitResult : Except Unit ClinicalResponse) :
    CQState :=
  if trimStr s.query = "" then
    { s with error := some "Please enter a clinical query" }
  else
    let s1 : CQState := { s with isLoading := true, error := none, response := none }
    match submitResult with
    | Except.ok result =>
      let s2 : CQState := { s1 with response := some result }
      let s3 : CQState :=
        if s2.queryHistory.contains (trimStr s.query) then s2
        else { s2 with queryHistory := trimStr s.query :: s2.queryHistory.take 4 }
      { s3 with isLoading := false }
    | Except.error _ =>
      { s1 with
          error := some "Error processing clinical query. Please try again.",
          isLoading := false }

/-- A concrete `ClinicalResponse` used to instantiate counterexamples and
witnesses. -/
def sampleResponse : ClinicalResponse :=
  { query_id := "q-1"
    recommendations := []
    drug_interactions := []
    differential_diagnoses := []
    red_flags := []
    next_steps := []
    timestamp := "2024-01-01T00:00:00Z"
    processing_time_ms := none }

/-- A concrete clinical-query state that already displays a response and
has history `["a", "b"]`. -/
def cqStateWithResponse : CQState :=
  { query := "chest pain workup"
    patientContext := {}
    isLoading := false
    response := some sampleResponse
    error := none
    queryHistory := ["a", "b"] }

/-! ## Drug-interaction checker (`components/DrugInteractions.tsx`,
component `DrugInteractions`) -/

/-- The `DrugInteraction` interface local to `DrugInteractions.tsx` (it
differs from the `types/api.ts` shape: it has `clinical_effects`, no
`mechanism`/`sources`).  The severity union type is modelled as `String`
because `getSeverityColor` is applied to arbitrary strings. -/
structure DIInteraction where
  drug1 : String
  drug2 : String
  severity : String
  description : String
  clinical_effects : String
  management : String
deriving Repr, DecidableEq

/-- The `DrugSummary` interface local to `DrugInteractions.tsx`. -/
structure DrugSummary where
  name : String
  generic_name : String
  drug_class : String
  indications : List String
  contraindications : List String
  common_side_effects : List String
  dosage_info : String
deriving Repr, DecidableEq

/-- State slots of the `DrugInteractions` component. -/
structure DIState where
  medications : List String
  interactions : List DIInteraction
  drugSummaries : List DrugSummary
  loading : Bool
  error : Option String
deriving Repr, DecidableEq

/-- The component's initial state: one empty medication input, no results,
not loading, no error. -/
def initialDIState : DIState :=
  { medications := [""]
    interactions := []
    drugSummaries := []
    loading := false
    error := none }

/-- `addMedication`: `setMedications([...medications, ""])`. -/
def addMedication (meds : List String) : List String :=
  meds ++ [""]

/-- `removeMedication`: when more than one input exists, keep every entry
whose position differs from `index` (`filter((_, i) => i !== index)`);
with a single input the list is left unchanged. -/
def removeMedication (meds : List String) (index : Nat) : List String :=
  if 1 < meds.length then
    (meds.enum.filter (fun p => p.1 ≠ index)).map Prod.snd
  else meds

/-- `updateMedication`: copy the list and assign position `index`
(`updated[index] = value`).  The UI only calls it with in-bounds indices;
`List.set` matches the in-bounds assignment (a JS out-of-bounds assignment
would instead extend the array). -/
def updateMedication (meds : List String) (index : Nat) (value : String) :
    List String :=
  meds.set index value

/-- The `validMedications` filter of `checkInteractions`:
`medications.filter((med) => med.trim() !== "")`. -/
def validMedicationsOf (meds : List String) : List String :=
  meds.filter (fun med => trimStr med ≠ "")

/-- An HTTP request issued by the `DrugInteractions` component: the
interactions POST (array body) or a per-drug summary GET. -/
inductive DIRequest where
  | interactionsPost : List String → DIRequest
  | summaryGet : String → DIRequest
deriving Repr, DecidableEq

/-- Recognizer for the interactions POST, used to count issued requests. -/
def DIRequest.isInteractionsPost : DIRequest → Bool
  | DIRequest.interactionsPost _ => true
  | DIRequest.summaryGet _ => false

/-- Recognizer for a per-drug summary GET, used to count issued requests. -/
def DIRequest.isSummaryGet : DIRequest → Bool
  | DIRequest.interactionsPost _ => false
  | DIRequest.summaryGet _ => true

/-- `checkInteractions`.  `interactionsResult` is the outcome of the
awaited interactions POST (`Except.error msg` models a rejected fetch or
the `throw new Error("Failed to check drug interactions")` taken on a
non-2xx response; the payload is the message stored by
`setError(err.message)`).  `summaryResult med` is the outcome of the
per-drug summary GET (`none` models a non-2xx response, which the source
maps to `null` and later drops with `filter(Boolean)`).  Returns the next
state together with the list of issued requests in issuance order. -/
def checkInteractions (s : DIState)
    (interactionsResult : Except String (List DIInteraction))
    (summaryResult : String → Option DrugSummary) :
    DIState × List DIRequest :=
  let validMedications := validMedicationsOf s.medications
  if validMedications.length < 2 then
    ({ s with
        error := some "Please enter at least 2 medications to check for interactions" },
      [])
  else
    let s1 : DIState := { s with loading := true, error := none }
    match interactionsResult with
    | Except.error msg =>
      ({ s1 with error := some msg, loading := false },
        [DIRequest.interactionsPost validMedications])
    | Except.ok data =>
      let summaries : List (Option DrugSummary) :=
        validMedications.map summaryResult
      ({ s1 with
          interactions := data,
          drugSummaries := summaries.filterMap id,
          loading := false },
        DIRequest.interactionsPost validMedications
          :: validMedications.map DIRequest.summaryGet)

/-- `getSeverityColor` of `DrugInteractions.tsx`: an exact-match switch on
the severity string with a gray default. -/
def getSeverityColor (severity : String) : String :=
  if severity = "minor" then "text-yellow-600 bg-yellow-50 border-yellow-200"
  else if severity = "moderate" then "text-orange-600 bg-orange-50 border-orange-200"
  else if severity = "major" then "text-red-600 bg-red-50 border-red-200"
  else if severity = "contraindicated" then "text-red-800 bg-red-100 border-red-300"
  else "text-gray-600 bg-gray-50 border-gray-200"

/-- The default (gray/neutral) severity style, the `default:` arm of
`getSeverityColor`. -/
def defaultSeverityStyle : String :=
  "text-gray-600 bg-gray-50 border-gray-200"

/-- The render guard of the "No Drug Interactions Found" box:
`interactions.length === 0 && !loading &&
 medications.filter((med) => med.trim() !== "").length >= 2`. -/
def noInteractionsFoundShown (s : DIState) : Bool :=
  s.interactions.length == 0 && !s.loading
    && decide (2 ≤ (validMedicationsOf s.medications).length)

/-! ## Guidelines explorer (component `GuidelinesExplorer`) -/

/-- A request issued by the guidelines explorer search: the full-text
search POST (body `{query, specialty, max_results: 20}`) or the
specialty-scoped GET `/guidelines/specialty/{specialty}`. -/
inductive GuidelinesRequest where
  | searchPost : String → String → GuidelinesRequest
  | specialtyGet : String → GuidelinesRequest
deriving Repr, DecidableEq

/-- The request `handleSearch` issues.  The source returns early (no
request) when the query trims to empty and no specialty is selected
(`!searchQuery.trim() && !selectedSpecialty`); otherwise it calls
`getGuidelinesBySpecialty` when a specialty is selected (JS truthiness:
non-empty string) and `searchGuidelines(searchQuery, selectedSpecialty)`
otherwise. -/
def handleSearchRequest (searchQuery selectedSpecialty : String) :
    Option GuidelinesRequest :=
  if trimStr searchQuery = "" ∧ selectedSpecialty = "" then
    none
  else if selectedSpecialty ≠ "" then
    some (GuidelinesRequest.specialtyGet selectedSpecialty)
  else
    some (GuidelinesRequest.searchPost searchQuery selectedSpecialty)

/-! ## Knowledge repository (component `KnowledgeRepository`) -/

/-- `DocumentSummary` of the knowledge repository (the fields the
selection logic touches; `quality_score` is a JS number in [0, 1]). -/
structure DocumentSummary where
  document_id : String
  title : String
  document_type : String
  evidence_level : String
  publication_date : String
  authors : List String
  journal : String
  docAbstract : String
  specialties : List String
  quality_score : Rat
  citation_count : Nat
  access_level : String
deriving Repr, DecidableEq

/-- `toggleDocumentSelection`: remove every occurrence of `docId` when
present (`prev.filter((id) => id !== docId)`), otherwise append it
(`[...prev, docId]`). -/
def toggleDocumentSelection (selected : List String) (docId : String) :
    List String :=
  if selected.contains docId then
    selected.filter (fun id => id ≠ docId)
  else
    selected ++ [docId]

/-- The "Select All" button:
`setSelectedDocuments(documents.map((d) => d.document_id))`. -/
def selectAllDocuments (documents : List DocumentSummary) : List String :=
  documents.map (fun d => d.document_id)

/-- The ids-and-format payload `exportBibliography` hands to
`knowledgeRepositoryAPI.exportBibliography(selectedDocuments, format)`:
`none` models the early return (alert, no request) on an empty selection. -/
def exportBibliographyRequest (selectedDocuments : List String)
    (format : String) : Option (List String × String) :=
  if selectedDocuments.length = 0 then none
  else some (selectedDocuments, format)

/-- `getEvidenceLevelColor` of the knowledge repository: a switch on
the uppercased level over `A`/`B`/`C`/`D` with a gray default. -/
def getEvidenceLevelColor (level : String) : String :=
  if toUpperStr level = "A" then "bg-green-100 text-green-800"
  else if toUpperStr level = "B" then "bg-blue-100 text-blue-800"
  else if toUpperStr level = "C" then "bg-yellow-100 text-yellow-800"
  else if toUpperStr level = "D" then "bg-red-100 text-red-800"
  else "bg-gray-100 text-gray-800"

/-- The default (gray/neutral) evidence-level style, the `default:` arm of
`getEvidenceLevelColor`. -/
def defaultEvidenceStyle : String :=
  "bg-gray-100 text-gray-800"

/-- A concrete drug-interaction state with the two medications of the
spec's scenario. -/
def diStateTwoMeds : DIState :=
  { medications := ["Warfarin", "Aspirin"]
    interactions := []
    drugSummaries := []
    loading := false
    error := none }

/-- A concrete clinical-query state whose trimmed query `"b"` is already
in the history, but not at its front. -/
def cqStateRepeatQuery : CQState :=
  { query := "b"
    patientContext := {}
    isLoading := false
    response := none
    error := none
    queryHistory := ["a", "b"] }

/-! ## Helper lemmas -/

theorem contains_iff_mem_str (l : List String) (a : String) :
    l.contains a = true ↔ a ∈ l :=
  List.elem_iff

theorem filter_enumFrom_of_lt {α : Type} (l : List α) (n i : Nat)
    (h : i < n) :
    ((List.enumFrom n l).filter (fun p => p.1 ≠ i)).map Prod.snd = l := by
  induction l generalizing n with
  | nil => rfl
  | cons a l ih =>
    have hne : (n : Nat) ≠ i := by omega
    simp only [List.enumFrom_cons, List.filter_cons, decide_eq_true_eq]
    rw [if_pos hne]
    simp only [List.map_cons]
    rw [ih (n + 1) (by omega)]

theorem filter_enumFrom_eq_eraseIdx {α : Type} (l : List α) (n i : Nat) :
    ((List.enumFrom n l).filter (fun p => p.1 ≠ (n + i))).map Prod.snd
      = l.eraseIdx i := by
  induction l generalizing n i with
  | nil => rfl
  | cons a l ih =>
    cases i with
    | zero =>
      have hzero : ¬ ((n : Nat) ≠ n + 0) := by omega
      simp only [List.enumFrom_cons, List.filter_cons, decide_eq_true_eq]
      rw [if_neg hzero, List.eraseIdx_cons_zero]
      have := filter_enumFrom_of_lt l (n + 1) n (by omega)
      simpa using this
    | succ j =>
      have hne : (n : Nat) ≠ n + (j + 1) := by omega
      simp only [List.enumFrom_cons, List.filter_cons, decide_eq_true_eq]
      rw [if_pos hne, List.eraseIdx_cons_succ]
      simp only [List.map_cons]
      have harith : n + (j + 1) = (n + 1) + j := by omega
      rw [harith, ih (n + 1) j]

theorem removeMedication_eq_eraseIdx (meds : List String) (i : Nat)
    (h : 1 < meds.length) :
    removeMedication meds i = meds.eraseIdx i := by
  unfold removeMedication
  rw [if_pos h]
  have := filter_enumFrom_eq_eraseIdx meds 0 i
  simpa [List.enum] using this

/-! ## Claim C1 -/

/-- Claim C1, counterexample: a state that displays `sampleResponse`
takes the `submitting → error` transition; the error message is set, but
the previously displayed response does not remain — it is cleared
(`setResponse(null)` runs before the await), so the claim's "previously
displayed response remains unchanged" is false at this input. -/
theorem handleSubmit_error_clears_displayed_response :
    cqStateWithResponse.response = some sampleResponse
    ∧ (handleSubmit cqStateWithResponse (Except.error ())).error
        = some "Error processing clinical query. Please try again."
    ∧ (handleSubmit cqStateWithResponse (Except.error ())).response
        ≠ cqStateWithResponse.response := by
  refine ⟨rfl, ?_, ?_⟩ <;> decide

/-- Claim C1 (amended): on the `submitting → error` transition of a
non-empty-query submission, the user-visible error message is set and the
previously displayed response is cleared (set to `none` at submission
start), while the query history is left unchanged. -/
theorem handleSubmit_error_transition (s : CQState)
    (hq : trimStr s.query ≠ "") :
    (handleSubmit s (Except.error ())).error
        = some "Error processing clinical query. Please try again."
    ∧ (handleSubmit s (Except.error ())).response = none
    ∧ (handleSubmit s (Except.error ())).isLoading = false
    ∧ (handleSubmit s (Except.error ())).queryHistory = s.queryHistory := by
  unfold handleSubmit
  rw [if_neg hq]
  exact ⟨rfl, rfl, rfl, rfl⟩

/-- Claim C1 witness: the amended theorem applied at a concrete state. -/
theorem handleSubmit_error_transition_applied :
    trimStr cqStateWithResponse.query ≠ ""
    ∧ (handleSubmit cqStateWithResponse (Except.error ())).response = none :=
  ⟨by decide,
    (handleSubmit_error_transition cqStateWithResponse (by decide)).2.1⟩

/-! ## Claim C2 -/

/-- Claim C2, counterexample: submitting `"b"` successfully with history
`["a", "b"]` leaves the history unchanged (the source only prepends when
`queryHistory.includes(query.trim())` is false), so the submitted text is
not at the front afterwards. -/
theorem handleSubmit_success_repeat_not_front :
    trimStr cqStateRepeatQuery.query = "b"
    ∧ (handleSubmit cqStateRepeatQuery
          (Except.ok sampleResponse)).queryHistory = ["a", "b"]
    ∧ (handleSubmit cqStateRepeatQuery
          (Except.ok sampleResponse)).queryHistory.head? ≠ some "b" := by
  refine ⟨by decide, by decide, by decide⟩

/-- Claim C2 (amended): after a successful submission of a non-empty
query, the trimmed query text is in the history; when it was not already
present it is prepended to the front with the prior history truncated to
its first 4 entries (so the result has at most 5 entries), and when it was
already present the history is unchanged; a duplicate-free history of
length at most 5 stays duplicate-free of length at most 5. -/
theorem handleSubmit_success_history_spec (s : CQState)
    (r : ClinicalResponse) (hq : trimStr s.query ≠ "")
    (hnd : s.queryHistory.Nodup) :
    trimStr s.query ∈ (handleSubmit s (Except.ok r)).queryHistory
    ∧ (handleSubmit s (Except.ok r)).queryHistory.Nodup
    ∧ (s.queryHistory.length ≤ 5 →
        (handleSubmit s (Except.ok r)).queryHistory.length ≤ 5)
    ∧ (trimStr s.query ∉ s.queryHistory →
        (handleSubmit s (Except.ok r)).queryHistory
          = trimStr s.query :: s.queryHistory.take 4)
    ∧ (trimStr s.query ∈ s.queryHistory →
        (handleSubmit s (Except.ok r)).queryHistory = s.queryHistory) := by
  unfold handleSubmit
  rw [if_neg hq]
  by_cases hc : trimStr s.query ∈ s.queryHistory
  · have hcb : s.queryHistory.contains (trimStr s.query) = true :=
      (contains_iff_mem_str _ _).mpr hc
    simp only [hcb, if_true]
    refine ⟨hc, hnd, fun h => h, fun h => absurd hc h, fun _ => ?_⟩
    trivial
  · have hcb : s.queryHistory.contains (trimStr s.query) = false := by
      rcases Bool.eq_false_or_eq_true
          (s.queryHistory.contains (trimStr s.query)) with h | h
      · exact absurd ((contains_iff_mem_str _ _).mp h) hc
      · exact h
    simp only [hcb, Bool.false_eq_true, if_false]
    refine ⟨List.mem_cons_self _ _, ?_, ?_, fun _ => ?_,
      fun h => absurd h hc⟩
    rotate_right
    · trivial
    · exact List.nodup_cons.mpr
        ⟨fun hm => hc (List.mem_of_mem_take hm),
          List.Nodup.sublist (List.take_sublist 4 s.queryHistory) hnd⟩
    · intro _
      have h1 : (s.queryHistory.take 4).length ≤ 4 := by
        rw [List.length_take]
        exact min_le_left 4 s.queryHistory.length
      simp only [List.length_cons]
      omega

/-- Claim C2 witness: the amended theorem applied at a concrete state
whose history does not contain the query. -/
theorem handleSubmit_success_history_spec_applied :
    trimStr cqStateWithResponse.query ≠ ""
    ∧ cqStateWithResponse.queryHistory.Nodup
    ∧ trimStr cqStateWithResponse.query
        ∈ (handleSubmit cqStateWithResponse
            (Except.ok sampleResponse)).queryHistory :=
  ⟨by decide, by decide,
    (handleSubmit_success_history_spec cqStateWithResponse sampleResponse
      (by decide) (by decide)).1⟩

/-! ## Claim C3 -/

/-- Claim C3: when fewer than 2 medication entries are non-blank after
trimming, `checkInteractions` issues no request at all, sets the
validation message, and leaves the interactions list, the summaries list
and the loading flag unchanged. -/
theorem checkInteractions_validation_no_request (s : DIState)
    (ir : Except String (List DIInteraction))
    (sr : String → Option DrugSummary)
    (h : (validMedicationsOf s.medications).length < 2) :
    (checkInteractions s ir sr).2 = []
    ∧ (checkInteractions s ir sr).1.error
        = some "Please enter at least 2 medications to check for interactions"
    ∧ (checkInteractions s ir sr).1.interactions = s.interactions
    ∧ (checkInteractions s ir sr).1.drugSummaries = s.drugSummaries
    ∧ (checkInteractions s ir sr).1.loading = s.loading := by
  simp only [checkInteractions]
  rw [if_pos h]
  exact ⟨rfl, rfl, rfl, rfl, rfl⟩

/-- Claim C3 witness: the theorem applied at the initial state (one blank
medication input), with an environment that would have answered. -/
theorem checkInteractions_validation_no_request_applied :
    (validMedicationsOf initialDIState.medications).length < 2
    ∧ (checkInteractions initialDIState (Except.ok [])
        (fun _ => none)).2 = [] :=
  ⟨by decide,
    (checkInteractions_validation_no_request initialDIState (Except.ok [])
      (fun _ => none) (by decide)).1⟩

/-! ## Claim C4 -/

/-- Claim C4: the "No Drug Interactions Found" box is rendered iff the
interactions list is empty, loading is false, and at least two medication
entries are non-blank after trimming. -/
theorem noInteractionsFoundShown_iff (s : DIState) :
    noInteractionsFoundShown s = true ↔
      s.interactions = [] ∧ s.loading = false
        ∧ 2 ≤ (s.medications.filter (fun med => trimStr med ≠ "")).length := by
  unfold noInteractionsFoundShown validMedicationsOf
  simp only [Bool.and_eq_true, decide_eq_true_eq, beq_iff_eq,
    Bool.not_eq_eq_eq_not, Bool.not_true, List.length_eq_zero, and_assoc]

/-! ## Claim C5 -/

/-- Claim C5, counterexample: the evidence-level string `"a"` lies outside
`{A, B, C, D}` yet maps to the green (level-A) style, not the gray
default, because `getEvidenceLevelColor` switches on the uppercased
string. -/
theorem getEvidenceLevelColor_lowercase_not_default :
    ("a" : String) ∉ (["A", "B", "C", "D"] : List String)
    ∧ getEvidenceLevelColor "a" = "bg-green-100 text-green-800"
    ∧ getEvidenceLevelColor "a" ≠ defaultEvidenceStyle := by
  refine ⟨by decide, by decide, by decide⟩

/-- Claim C5 (amended): both style mappings are total functions into
strings.  Every severity string outside `{minor, moderate, major,
contraindicated}` maps to the default gray style and every string inside
maps to a designated non-default style; every evidence-level string whose
UPPERCASING is outside `{A, B, C, D}` maps to the default gray style and
every string whose uppercasing is inside maps to a designated non-default
style (so case variants such as `"a"` get the level-A style, not the
default). -/
theorem severityEvidence_styles_spec (sev lev : String)
    (hs : sev ∉ (["minor", "moderate", "major", "contraindicated"] :
      List String))
    (hl : toUpperStr lev ∉ (["A", "B", "C", "D"] : List String)) :
    getSeverityColor sev = defaultSeverityStyle
    ∧ getEvidenceLevelColor lev = defaultEvidenceStyle
    ∧ (∀ x ∈ (["minor", "moderate", "major", "contraindicated"] :
        List String), getSeverityColor x ≠ defaultSeverityStyle)
    ∧ (∀ y : String,
        toUpperStr y ∈ (["A", "B", "C", "D"] : List String) →
          getEvidenceLevelColor y ≠ defaultEvidenceStyle) := by
  simp only [List.mem_cons, List.not_mem_nil, not_or, or_false] at hs hl
  refine ⟨?_, ?_, ?_, ?_⟩
  · simp [getSeverityColor, defaultSeverityStyle, hs.1, hs.2.1, hs.2.2.1,
      hs.2.2.2]
  · simp [getEvidenceLevelColor, defaultEvidenceStyle, hl.1, hl.2.1,
      hl.2.2.1, hl.2.2.2]
  · intro x hx
    simp only [List.mem_cons, List.not_mem_nil, or_false] at hx
    rcases hx with h | h | h | h <;> subst h <;> decide
  · intro y hy
    simp only [List.mem_cons, List.not_mem_nil, or_false] at hy
    rcases hy with h | h | h | h <;>
      simp only [getEvidenceLevelColor, h] <;> decide

/-- Claim C5 witness: the amended theorem applied at strings outside both
enumerations. -/
theorem severityEvidence_styles_spec_applied :
    ("severe" : String) ∉ (["minor", "moderate", "major", "contraindicated"] :
      List String)
    ∧ toUpperStr "x" ∉ (["A", "B", "C", "D"] : List String)
    ∧ getSeverityColor "severe" = defaultSeverityStyle
    ∧ getEvidenceLevelColor "x" = defaultEvidenceStyle :=
  ⟨by decide, by decide,
    (severityEvidence_styles_spec "severe" "x" (by decide) (by decide)).1,
    (severityEvidence_styles_spec "severe" "x" (by decide) (by decide)).2.1⟩

/-! ## Claim C6 -/

/-- Claim C6: a successful interaction check over `n ≥ 2` valid
medications issues exactly one interactions POST followed by exactly one
summary GET per valid medication; the rendered summaries are exactly the
successful lookups (failed lookups are dropped), and no error is set, so
there is no user-visible partial-failure indication. -/
theorem checkInteractions_success_fanout (s : DIState)
    (data : List DIInteraction) (sr : String → Option DrugSummary)
    (h : 2 ≤ (validMedicationsOf s.medications).length) :
    (checkInteractions s (Except.ok data) sr).2
        = DIRequest.interactionsPost (validMedicationsOf s.medications)
            :: (validMedicationsOf s.medications).map DIRequest.summaryGet
    ∧ (checkInteractions s (Except.ok data) sr).2.countP
          DIRequest.isInteractionsPost = 1
    ∧ (checkInteractions s (Except.ok data) sr).2.countP
          DIRequest.isSummaryGet
        = (validMedicationsOf s.medications).length
    ∧ (checkInteractions s (Except.ok data) sr).1.interactions = data
    ∧ (checkInteractions s (Except.ok data) sr).1.drugSummaries
        = (validMedicationsOf s.medications).filterMap sr
    ∧ (checkInteractions s (Except.ok data) sr).1.error = none := by
  have hlt : ¬ (validMedicationsOf s.medications).length < 2 := by omega
  simp only [checkInteractions]
  rw [if_neg hlt]
  refine ⟨rfl, ?_, ?_, rfl, ?_, rfl⟩
  · simp [List.countP_cons, List.countP_map, DIRequest.isInteractionsPost,
      Function.comp_def, List.countP_eq_zero]
  · simp [List.countP_cons, List.countP_map, DIRequest.isSummaryGet,
      Function.comp_def, List.countP_true]
  · simp [List.filterMap_map, Function.comp_def]

/-- Claim C6 witness: the theorem applied at the two-medication scenario
state with an environment whose summary lookups all fail. -/
theorem checkInteractions_success_fanout_applied :
    2 ≤ (validMedicationsOf diStateTwoMeds.medications).length
    ∧ (checkInteractions diStateTwoMeds (Except.ok [])
          (fun _ => none)).2
        = DIRequest.interactionsPost
            (validMedicationsOf diStateTwoMeds.medications)
          :: (validMedicationsOf diStateTwoMeds.medications).map
              DIRequest.summaryGet :=
  ⟨by decide,
    (checkInteractions_success_fanout diStateTwoMeds [] (fun _ => none)
      (by decide)).1⟩

/-! ## Claim C7 -/

/-- Claim C7: with a non-empty selected specialty, `handleSearch` issues
the specialty-scoped request (even when the query text is empty); with an
all-whitespace query and no selected specialty it issues no request. -/
theorem handleSearch_specialty_scoped (q sp : String) :
    (sp ≠ "" → handleSearchRequest q sp
        = some (GuidelinesRequest.specialtyGet sp))
    ∧ (trimStr q = "" → handleSearchRequest q "" = none) := by
  constructor
  · intro hsp
    have h1 : ¬ (trimStr q = "" ∧ sp = "") := fun h => hsp h.2
    unfold handleSearchRequest
    rw [if_neg h1, if_pos hsp]
  · intro hq
    unfold handleSearchRequest
    rw [if_pos ⟨hq, rfl⟩]

/-- Claim C7 witness: the theorem applied with an empty query plus a
selected specialty, and with a whitespace query plus no specialty. -/
theorem handleSearch_specialty_scoped_applied :
    ("cardiology" : String) ≠ ""
    ∧ handleSearchRequest "" "cardiology"
        = some (GuidelinesRequest.specialtyGet "cardiology")
    ∧ trimStr " " = ""
    ∧ handleSearchRequest " " "" = none :=
  ⟨by decide, (handleSearch_specialty_scoped "" "cardiology").1 (by decide),
    by decide, (handleSearch_specialty_scoped " " "").2 (by decide)⟩

/-! ## Claim C8 -/

/-- Claim C8: the medication-input list keeps length at least 1:
`addMedication` appends exactly one empty entry, `removeMedication` leaves
a length-1 list unchanged and otherwise removes exactly the entry at the
given index (`eraseIdx`), and none of the three operations turns a
non-empty list into an empty one. -/
theorem medicationList_min_one (meds : List String) (i : Nat) (v : String)
    (hne : meds ≠ []) :
    addMedication meds = meds ++ [""]
    ∧ addMedication meds ≠ []
    ∧ (meds.length = 1 → removeMedication meds i = meds)
    ∧ (1 < meds.length → removeMedication meds i = meds.eraseIdx i)
    ∧ removeMedication meds i ≠ []
    ∧ updateMedication meds i v ≠ [] := by
  refine ⟨rfl, ?_, ?_, removeMedication_eq_eraseIdx meds i, ?_, ?_⟩
  · simp [addMedication]
  · intro h1
    unfold removeMedication
    rw [if_neg (by omega)]
  · by_cases h : 1 < meds.length
    · rw [removeMedication_eq_eraseIdx meds i h]
      have hlen : (meds.eraseIdx i).length ≠ 0 := by
        rw [List.length_eraseIdx]
        split <;> omega
      exact fun hcon => hlen (by simp [hcon])
    · unfold removeMedication
      rw [if_neg h]
      exact hne
  · intro hcon
    apply hne
    have hl := congrArg List.length hcon
    unfold updateMedication at hl
    rw [List.length_set] at hl
    exact List.length_eq_zero.mp (by simpa using hl)

/-- Claim C8 witness: the theorem applied at a singleton list (removal is
a no-op) and at a two-element list. -/
theorem medicationList_min_one_applied :
    (["a"] : List String) ≠ []
    ∧ removeMedication ["a"] 0 = ["a"]
    ∧ removeMedication ["a", "b"] 0 = ["b"] :=
  ⟨by decide,
    (medicationList_min_one ["a"] 0 "x" (by decide)).2.2.1 (by decide),
    by
      rw [(medicationList_min_one ["a", "b"] 0 "x"
        (by decide)).2.2.2.1 (by decide)]
      decide⟩

/-! ## Claim C9 -/

/-- Claim C9: toggling an id not in the selection appends it; toggling an
id in the selection removes it; toggling the same id twice restores the
original selection as a set; toggling and select-all keep the selection
duplicate-free (select-all given search results with unique document
ids); and `exportBibliography` sends exactly the ids of the current
(non-empty) selection. -/
theorem documentSelection_spec (sel : List String) (d : String)
    (docs : List DocumentSummary) (fmt : String) (hnd : sel.Nodup)
    (hdocs : (docs.map (fun x => x.document_id)).Nodup) :
    (d ∉ sel → toggleDocumentSelection sel d = sel ++ [d])
    ∧ (d ∈ sel → d ∉ toggleDocumentSelection sel d)
    ∧ (∀ x, x ∈ toggleDocumentSelection (toggleDocumentSelection sel d) d
        ↔ x ∈ sel)
    ∧ (toggleDocumentSelection sel d).Nodup
    ∧ (selectAllDocuments docs).Nodup
    ∧ (sel ≠ [] → exportBibliographyRequest sel fmt = some (sel, fmt)) := by
  have hpos : d ∈ sel →
      toggleDocumentSelection sel d = sel.filter (fun id => id ≠ d) := by
    intro hd
    unfold toggleDocumentSelection
    rw [if_pos ((contains_iff_mem_str _ _).mpr hd)]
  have hneg : d ∉ sel → toggleDocumentSelection sel d = sel ++ [d] := by
    intro hd
    unfold toggleDocumentSelection
    rw [if_neg (fun hc => hd ((contains_iff_mem_str _ _).mp hc))]
  refine ⟨hneg, ?_, ?_, ?_, ?_, ?_⟩
  · intro hd
    rw [hpos hd]
    simp [List.mem_filter]
  · intro x
    by_cases hd : d ∈ sel
    · have hdn : d ∉ sel.filter (fun id => id ≠ d) := by
        simp [List.mem_filter]
      have h2 : toggleDocumentSelection (sel.filter (fun id => id ≠ d)) d
          = sel.filter (fun id => id ≠ d) ++ [d] := by
        unfold toggleDocumentSelection
        rw [if_neg (fun hc => hdn ((contains_iff_mem_str _ _).mp hc))]
      rw [hpos hd, h2]
      simp only [List.mem_append, List.mem_filter, List.mem_singleton,
        decide_eq_true_eq]
      constructor
      · rintro (⟨hx, _⟩ | rfl)
        · exact hx
        · exact hd
      · intro hx
        by_cases hxd : x = d
        · exact Or.inr hxd
        · exact Or.inl ⟨hx, hxd⟩
    · have h2 : toggleDocumentSelection (sel ++ [d]) d
          = (sel ++ [d]).filter (fun id => id ≠ d) := by
        unfold toggleDocumentSelection
        rw [if_pos ((contains_iff_mem_str _ _).mpr (by simp))]
      rw [hneg hd, h2]
      simp only [List.filter_append, List.mem_append, List.mem_filter,
        decide_eq_true_eq]
      constructor
      · rintro (⟨hx, _⟩ | hx)
        · exact hx
        · simp at hx
      · intro hx
        exact Or.inl ⟨hx, fun heq => hd (heq ▸ hx)⟩
  · by_cases hd : d ∈ sel
    · rw [hpos hd]
      exact List.Nodup.filter _ hnd
    · rw [hneg hd]
      refine List.nodup_append.mpr ⟨hnd, List.nodup_singleton d, ?_⟩
      exact fun a ha hb => hd ((List.mem_singleton.mp hb) ▸ ha)
  · exact hdocs
  · intro hne
    unfold exportBibliographyRequest
    rw [if_neg (fun h => hne (List.length_eq_zero.mp h))]

/-- Claim C9 witness: the theorem applied at a concrete duplicate-free
selection. -/
theorem documentSelection_spec_applied :
    (["d1", "d2"] : List String).Nodup
    ∧ (∀ x, x ∈ toggleDocumentSelection
          (toggleDocumentSelection ["d1", "d2"] "d3") "d3"
        ↔ x ∈ (["d1", "d2"] : List String)) :=
  ⟨by decide,
    (documentSelection_spec ["d1", "d2"] "d3" [] "bibtex" (by decide)
      (by decide)).2.2.1⟩

/-! ## Claim C10 -/

/-- Claim C10: for an in-bounds index, `updateMedication` sets exactly the
entry at that index to the new value: the length is unchanged, position
`i` now holds `v`, and every other position is unchanged. -/
theorem updateMedication_frame (meds : List String) (i : Nat) (v : String)
    (hi : i < meds.length) :
    (updateMedication meds i v).length = meds.length
    ∧ (updateMedication meds i v)[i]? = some v
    ∧ ∀ j : Nat, j ≠ i → (updateMedication meds i v)[j]? = meds[j]? := by
  refine ⟨List.length_set meds i v, ?_, ?_⟩
  · exact List.getElem?_set_self hi
  · intro j hj
    exact List.getElem?_set_ne hj.symm

/-- Claim C10 witness: the theorem applied at a two-element list. -/
theorem updateMedication_frame_applied :
    1 < (["a", "b"] : List String).length
    ∧ (updateMedication ["a", "b"] 1 "x")[1]? = some "x"
    ∧ (updateMedication ["a", "b"] 1 "x")[0]? = (["a", "b"] :
        List String)[0]? :=
  ⟨by decide,
    (updateMedication_frame ["a", "b"] 1 "x" (by decide)).2.1,
    (updateMedication_frame ["a", "b"] 1 "x" (by decide)).2.2 0
      (by decide)⟩

end CDS
